import Mathlib

/-!
Verification development for the community-garden backend core.

The definitions below are a shallow embedding of the Rust source:

* `src/backend/src/api/handlers/claim.rs` — the claim state machine
  (`evaluate_transition`, `determine_actor_role`,
  `adjust_listing_quantity_if_needed`, the claim UPDATE of
  `transition_claim`),
* `src/backend/src/api/handlers/listing.rs` — listing create/update
  inventory writes and the deterministic idempotency id,
* `src/backend/src/api/router.rs` — `map_api_error_to_response`,
* `src/backend/src/workers/rolling_geo_aggregation.rs` and
  `src/backend/src/workers/derived_pipeline_replay.rs` — geo scope
  expansion, bucket computation, and the replay driver control flow.

Quantities are embedded as rationals: the store columns are SQL
`numeric` and every arithmetic step the claims quantify over
(`quantity_remaining - $1`, `least(...)`, `quantity_remaining + $1`)
is performed by Postgres on `numeric`, which is exact decimal
arithmetic. Identifiers (UUIDs) are embedded as `Nat`, since the code
only compares them for equality. Timestamps are epoch values
(`Int` seconds where the code manipulates epoch seconds, abstract
`Nat` tags where the code only stores `now()` via `COALESCE`).
-/

namespace CommunityGarden

/-- Claim lifecycle status, from the `claim_status` enum in
`claim.rs` (`ClaimStatus`). -/
inductive ClaimStatus
  | pending
  | confirmed
  | completed
  | cancelled
  | noShow
deriving DecidableEq, Fintype, Repr

/-- `ClaimStatus::as_db_value` from `claim.rs`. -/
def ClaimStatus.as_db_value : ClaimStatus → String
  | .pending => "pending"
  | .confirmed => "confirmed"
  | .completed => "completed"
  | .cancelled => "cancelled"
  | .noShow => "no_show"

/-- Actor role for a claim transition, from `claim.rs`
(`ClaimActorRole`). -/
inductive ClaimActorRole
  | claimer
  | listingOwner
deriving DecidableEq, Fintype, Repr

/-- Inventory adjustment direction, from `claim.rs`
(`ListingQuantityAdjustment`). -/
inductive ListingQuantityAdjustment
  | noChange
  | decrement
  | increment
deriving DecidableEq, Fintype, Repr

/-- Decision computed for a claim transition, from `claim.rs`
(`TransitionDecision`). -/
structure TransitionDecision where
  quantity_adjustment : ListingQuantityAdjustment
  stamp_confirmed_at : Bool
  stamp_completed_at : Bool
  stamp_cancelled_at : Bool
deriving DecidableEq, Repr

/-- `determine_actor_role` from `claim.rs`: compare the acting user id
with the claim claimer id, then with the listing owner id. -/
def determine_actor_role (actor_user_id claimer_id listing_owner_id : Nat) :
    Except String ClaimActorRole :=
  if actor_user_id = claimer_id then .ok .claimer
  else if actor_user_id = listing_owner_id then .ok .listingOwner
  else .error "Forbidden: You are not a participant in this claim"

/-- The invalid-transition error message built by `evaluate_transition`
in `claim.rs` (a `format!` over the two db values). -/
def invalid_transition_message (current target : ClaimStatus) : String :=
  "Invalid claim transition from \x27" ++ current.as_db_value ++
    "\x27 to \x27" ++ target.as_db_value ++ "\x27"

/-- `evaluate_transition` from `claim.rs`: the decision table of the
claim state machine. -/
def evaluate_transition (current target : ClaimStatus)
    (actor_role : ClaimActorRole) : Except String TransitionDecision :=
  if current = target then
    .ok { quantity_adjustment := .noChange, stamp_confirmed_at := false,
          stamp_completed_at := false, stamp_cancelled_at := false }
  else
    match current, target with
    | .pending, .confirmed =>
        if actor_role ≠ .listingOwner then
          .error "Forbidden: Only listing owner can confirm a pending claim"
        else
          .ok { quantity_adjustment := .decrement, stamp_confirmed_at := true,
                stamp_completed_at := false, stamp_cancelled_at := false }
    | .pending, .cancelled =>
        .ok { quantity_adjustment := .noChange, stamp_confirmed_at := false,
              stamp_completed_at := false, stamp_cancelled_at := true }
    | .confirmed, .completed =>
        .ok { quantity_adjustment := .noChange, stamp_confirmed_at := false,
              stamp_completed_at := true, stamp_cancelled_at := false }
    | .confirmed, .cancelled =>
        .ok { quantity_adjustment := .increment, stamp_confirmed_at := false,
              stamp_completed_at := false, stamp_cancelled_at := true }
    | .confirmed, .noShow =>
        if actor_role ≠ .listingOwner then
          .error "Forbidden: Only listing owner can mark no_show"
        else
          .ok { quantity_adjustment := .increment, stamp_confirmed_at := false,
                stamp_completed_at := false, stamp_cancelled_at := true }
    | _, _ => .error (invalid_transition_message current target)

deriving instance DecidableEq for Except

/-- Does the character list start with the given pattern? Helper for
the substring test below. -/
def starts_with : List Char → List Char → Bool
  | _, [] => true
  | [], _ :: _ => false
  | h :: hs, p :: ps => h = p && starts_with hs ps

/-- Does the pattern occur contiguously in the character list? -/
def contains_chars : List Char → List Char → Bool
  | [], pat => pat.isEmpty
  | h :: rest, pat => starts_with (h :: rest) pat || contains_chars rest pat

/-- Substring test, embedding Rust `str::contains` as used by the
router on error messages. -/
def contains_sub (message pat : String) : Bool :=
  contains_chars message.data pat.data

/-- `map_api_error_to_response` from `router.rs`, reduced to the HTTP
status it selects for a given error message. -/
def map_api_error_to_response (message : String) : Nat :=
  if contains_sub message "Invalid JSON body"
      || contains_sub message "must be a valid UUID"
      || contains_sub message "Invalid status"
      || contains_sub message "Invalid visibility"
      || contains_sub message "Invalid listing status"
      || contains_sub message "Invalid limit"
      || contains_sub message "Invalid offset"
      || contains_sub message "Invalid pickupDisclosurePolicy"
      || contains_sub message "Invalid contactPref"
      || contains_sub message "quantityTotal"
      || contains_sub message "availableStart"
      || contains_sub message "availableEnd"
      || contains_sub message "title is required"
      || contains_sub message "unit is required"
      || contains_sub message "lat must be"
      || contains_sub message "lng must be"
      || contains_sub message "does not reference an existing catalog crop"
      || contains_sub message "must belong to the specified crop_id"
      || contains_sub message "Request body is required"
      || contains_sub message "share_radius_km"
      || contains_sub message "lat and lng"
      || contains_sub message "units must be one of" then
    400
  else if contains_sub message "Missing userId in authorizer context" then
    401
  else if contains_sub message "Forbidden:" then
    403
  else
    500

/-- The source pairs `(current, target)` for which `evaluate_transition`
has an explicit edge (the five arrows of the state diagram). -/
def transition_edges : List (ClaimStatus × ClaimStatus) :=
  [(.pending, .confirmed), (.pending, .cancelled),
   (.confirmed, .completed), (.confirmed, .cancelled),
   (.confirmed, .noShow)]

/-- The decision that moves nothing: no inventory change, no stamps. -/
def noop_decision : TransitionDecision :=
  { quantity_adjustment := .noChange, stamp_confirmed_at := false,
    stamp_completed_at := false, stamp_cancelled_at := false }

/-- C1: the transition decision table permits exactly the five edges of
the state diagram with the stated role checks, inventory moves and
timestamp stamps; an equal target is an idempotent no-op; every other
pair is rejected with the invalid-transition error; role-only
rejections carry a `Forbidden:` message which the router reports as
HTTP 403. -/
theorem claim_transition_decision_table :
    (evaluate_transition .pending .confirmed .listingOwner =
        .ok { quantity_adjustment := .decrement, stamp_confirmed_at := true,
              stamp_completed_at := false, stamp_cancelled_at := false }) ∧
    (evaluate_transition .pending .confirmed .claimer =
        .error "Forbidden: Only listing owner can confirm a pending claim") ∧
    (∀ r, evaluate_transition .pending .cancelled r =
        .ok { quantity_adjustment := .noChange, stamp_confirmed_at := false,
              stamp_completed_at := false, stamp_cancelled_at := true }) ∧
    (∀ r, evaluate_transition .confirmed .completed r =
        .ok { quantity_adjustment := .noChange, stamp_confirmed_at := false,
              stamp_completed_at := true, stamp_cancelled_at := false }) ∧
    (∀ r, evaluate_transition .confirmed .cancelled r =
        .ok { quantity_adjustment := .increment, stamp_confirmed_at := false,
              stamp_completed_at := false, stamp_cancelled_at := true }) ∧
    (evaluate_transition .confirmed .noShow .listingOwner =
        .ok { quantity_adjustment := .increment, stamp_confirmed_at := false,
              stamp_completed_at := false, stamp_cancelled_at := true }) ∧
    (evaluate_transition .confirmed .noShow .claimer =
        .error "Forbidden: Only listing owner can mark no_show") ∧
    (∀ c r, evaluate_transition c c r = .ok noop_decision) ∧
    (∀ c t r, (evaluate_transition c t r =
        .error (invalid_transition_message c t)) ↔
        (c ≠ t ∧ (c, t) ∉ transition_edges)) ∧
    (map_api_error_to_response
        "Forbidden: Only listing owner can confirm a pending claim" = 403) ∧
    (map_api_error_to_response
        "Forbidden: Only listing owner can mark no_show" = 403) ∧
    (∀ a c o : Nat,
      (determine_actor_role a c o = .ok .claimer ↔ a = c) ∧
      (determine_actor_role a c o = .ok .listingOwner ↔ a ≠ c ∧ a = o) ∧
      (determine_actor_role a c o =
          .error "Forbidden: You are not a participant in this claim" ↔
          a ≠ c ∧ a ≠ o)) := by
  refine ⟨by decide, by decide, by decide, by decide, by decide, by decide,
    by decide, by decide, by decide, by decide, by decide, ?_⟩
  intro a c o
  unfold determine_actor_role
  split_ifs with h1 h2 <;> simp_all

/-- Listing lifecycle status, from the `listing_status` enum
(`ALLOWED_LISTING_STATUS` in `listing.rs`). -/
inductive ListingStatus
  | active
  | pending
  | claimed
  | expired
  | completed
deriving DecidableEq, Fintype, Repr

/-- The inventory-relevant columns of a `surplus_listings` row. -/
structure SurplusListing where
  user_id : Nat
  quantity_total : ℚ
  quantity_remaining : Option ℚ
  status : ListingStatus
  deleted : Bool
deriving DecidableEq, Repr

/-- The row inserted by `create_listing` in `listing.rs`: the insert
passes `$7, $7` for `(quantity_total, quantity_remaining)`, so
`quantity_remaining` starts equal to `quantity_total`; the status comes
from the normalized payload (default `active`). -/
def create_listing_row (user_id : Nat) (quantity_total : ℚ)
    (status : ListingStatus) : SurplusListing :=
  { user_id := user_id, quantity_total := quantity_total,
    quantity_remaining := some quantity_total, status := status,
    deleted := false }

/-- `normalize_payload` in `listing.rs` rejects a non-positive
`quantity_total` before any write. -/
def normalize_quantity_total (q : ℚ) : Except String ℚ :=
  if q ≤ 0 then .error "quantityTotal must be greater than 0" else .ok q

/-- The inventory columns of `UPDATE_LISTING_SQL` in `listing.rs`:
`quantity_total = $5` and
`quantity_remaining = least(coalesce(quantity_remaining, $5), $5)`.
The WHERE clause (owner match, `deleted_at is null`) decides whether
the row changes at all; a non-matching row is left untouched. -/
def update_listing_quantities (l : SurplusListing) (new_total : ℚ) :
    SurplusListing :=
  { l with quantity_total := new_total,
           quantity_remaining :=
             some (min (l.quantity_remaining.getD new_total) new_total) }

/-- `adjust_listing_quantity_if_needed` from `claim.rs`: the guarded
decrement UPDATE (zero matched rows abort with the insufficient-quantity
error) and the unguarded increment UPDATE (its row count is not
checked). The CASE expressions read the pre-update column values, as
SQL does. -/
def adjust_listing_quantity_if_needed (l : SurplusListing)
    (quantity_claimed : ℚ) :
    ListingQuantityAdjustment → Except String SurplusListing
  | .noChange => .ok l
  | .decrement =>
    match l.quantity_remaining with
    | none =>
      if l.deleted then .error "Insufficient quantity remaining"
      else .ok l
    | some r =>
      if l.deleted ∨ r < quantity_claimed then
        .error "Insufficient quantity remaining"
      else
        .ok { l with
              quantity_remaining := some (r - quantity_claimed),
              status := if r - quantity_claimed ≤ 0 then .claimed
                        else l.status }
  | .increment =>
    if l.deleted then .ok l
    else
      .ok { l with
            quantity_remaining :=
              l.quantity_remaining.map (· + quantity_claimed),
            status := if l.status = .claimed then .active else l.status }

/-- The claim-row columns touched by the UPDATE in `transition_claim`. -/
structure ClaimRow where
  claimer_id : Nat
  quantity_claimed : ℚ
  status : ClaimStatus
  notes : Option String
  claimed_at : Nat
  confirmed_at : Option Nat
  completed_at : Option Nat
  cancelled_at : Option Nat
deriving DecidableEq, Repr

/-- Whitespace trim on both ends, embedding Rust `str::trim` (the
notes in these claims are ASCII, where `Char.isWhitespace` and the
Rust definition agree). -/
def trim_chars (s : List Char) : List Char :=
  ((s.dropWhile Char.isWhitespace).reverse.dropWhile
    Char.isWhitespace).reverse

/-- `normalize_optional_text` from `claim.rs`: trim, and drop an
all-whitespace value. -/
def normalize_optional_text (value : Option String) : Option String :=
  value.bind fun text =>
    let trimmed := trim_chars text.data
    if trimmed.isEmpty then none else some (String.mk trimmed)

/-- The claim UPDATE in `transition_claim`: sets the status, coalesces
notes (`notes = coalesce($2, notes)`), and stamps each timestamp with
`coalesce(existing, now())` exactly when the decision says so. -/
def apply_claim_update (c : ClaimRow) (target : ClaimStatus)
    (notes : Option String) (d : TransitionDecision) (now : Nat) :
    ClaimRow :=
  { c with
    status := target,
    notes := match notes with
             | some n => some n
             | none => c.notes,
    confirmed_at := if d.stamp_confirmed_at then
                      some (c.confirmed_at.getD now)
                    else c.confirmed_at,
    completed_at := if d.stamp_completed_at then
                      some (c.completed_at.getD now)
                    else c.completed_at,
    cancelled_at := if d.stamp_cancelled_at then
                      some (c.cancelled_at.getD now)
                    else c.cancelled_at }

/-- Outcome of `transition_claim`: a 200 response with the updated
rows, the 404 not-found response (claim missing or listing
soft-deleted), or an `Err(...)` that the router maps to a status. -/
inductive TransitionHttpOutcome
  | success (claim : ClaimRow) (listing : SurplusListing)
  | notFound
  | failure (message : String)
deriving DecidableEq, Repr

/-- The transaction body of `transition_claim` in `claim.rs`: lock and
read the claim joined to its non-deleted listing, resolve the actor
role, evaluate the transition, apply the conditional inventory
adjustment, then update the claim row. Any error aborts the
transaction. -/
def transition_claim_tx (claim : ClaimRow) (listing : SurplusListing)
    (actor_user_id : Nat) (target : ClaimStatus)
    (payload_notes : Option String) (now : Nat) : TransitionHttpOutcome :=
  if listing.deleted then .notFound
  else
    match determine_actor_role actor_user_id claim.claimer_id
        listing.user_id with
    | .error m => .failure m
    | .ok role =>
      match evaluate_transition claim.status target role with
      | .error m => .failure m
      | .ok d =>
        match adjust_listing_quantity_if_needed listing
            claim.quantity_claimed d.quantity_adjustment with
        | .error m => .failure m
        | .ok listing2 =>
          .success
            (apply_claim_update claim target
              (normalize_optional_text payload_notes) d now)
            listing2

/-- The HTTP status each outcome surfaces with: `json_response(200, _)`
on success, `error_response(404, _)` for not-found, and
`map_api_error_to_response` for an `Err`. -/
def transition_http_status : TransitionHttpOutcome → Nat
  | .success _ _ => 200
  | .notFound => 404
  | .failure m => map_api_error_to_response m

/-- The rows visible after the transaction: only a committed success
mutates the store; 404 and errors roll back. -/
def persisted_rows (outcome : TransitionHttpOutcome)
    (orig : ClaimRow × SurplusListing) : ClaimRow × SurplusListing :=
  match outcome with
  | .success c l => (c, l)
  | _ => orig

/-- The §8 inventory invariant:
`0 ≤ quantity_remaining ≤ quantity_total` whenever non-null. -/
def listing_quantity_invariant (l : SurplusListing) : Prop :=
  ∀ r, l.quantity_remaining = some r → 0 ≤ r ∧ r ≤ l.quantity_total

/-- C2 (amended): listing create establishes the inventory invariant,
listing update re-establishes it (shrinking `quantity_total` is clamped
by `LEAST`), and the guarded decrement preserves it; the cancellation /
no-show increment preserves the lower bound `0 ≤ quantity_remaining`
but preserves the upper bound only when the pre-state satisfies
`quantity_remaining + delta ≤ quantity_total` (no interleaved shrink of
`quantity_total` since the confirm). -/
theorem listing_quantity_invariant_preservation :
    (∀ uid q s, 0 < q →
      listing_quantity_invariant (create_listing_row uid q s)) ∧
    (∀ l q, 0 < q → listing_quantity_invariant l →
      listing_quantity_invariant (update_listing_quantities l q)) ∧
    (∀ l (d : ℚ) l2, 0 ≤ d → listing_quantity_invariant l →
      adjust_listing_quantity_if_needed l d .decrement = .ok l2 →
      listing_quantity_invariant l2) ∧
    (∀ l (d : ℚ),
      adjust_listing_quantity_if_needed l d .noChange = .ok l) ∧
    (∀ l (d : ℚ) l2, 0 ≤ d → listing_quantity_invariant l →
      adjust_listing_quantity_if_needed l d .increment = .ok l2 →
      (∀ r, l2.quantity_remaining = some r → 0 ≤ r) ∧
      ((∀ r0, l.quantity_remaining = some r0 → r0 + d ≤ l.quantity_total) →
        listing_quantity_invariant l2)) := by
  refine ⟨?_, ?_, ?_, ?_, ?_⟩
  · intro uid q s hq r hr
    simp only [create_listing_row, Option.some.injEq] at hr
    subst hr
    exact ⟨le_of_lt hq, le_refl _⟩
  · intro l q hq hinv r hr
    simp only [update_listing_quantities, Option.some.injEq] at hr
    subst hr
    cases hqr : l.quantity_remaining with
    | none =>
      simp only [hqr, Option.getD_none]
      constructor
      · exact le_min (le_of_lt hq) (le_of_lt hq)
      · exact min_le_right _ _
    | some r0 =>
      have h0 := (hinv r0 hqr).1
      simp only [hqr, Option.getD_some]
      exact ⟨le_min h0 (le_of_lt hq), min_le_right _ _⟩
  · intro l d l2 hd hinv heq
    cases hqr : l.quantity_remaining with
    | none =>
      simp only [adjust_listing_quantity_if_needed, hqr] at heq
      by_cases hdel : l.deleted
      · rw [if_pos hdel] at heq
        exact Except.noConfusion heq
      · rw [if_neg hdel] at heq
        injection heq with h2
        subst h2
        intro r hr
        rw [hqr] at hr
        cases hr
    | some r0 =>
      simp only [adjust_listing_quantity_if_needed, hqr] at heq
      by_cases hguard : l.deleted = true ∨ r0 < d
      · rw [if_pos hguard] at heq
        exact Except.noConfusion heq
      · rw [if_neg hguard] at heq
        injection heq with h2
        subst h2
        push_neg at hguard
        obtain ⟨h1, h2⟩ := hinv r0 hqr
        intro r hr
        have hr2 : some (r0 - d) = some r := hr
        injection hr2 with h3
        subst h3
        constructor
        · exact sub_nonneg.mpr hguard.2
        · exact le_trans (sub_le_self r0 hd) h2
  · intro l d
    rfl
  · intro l d l2 hd hinv heq
    by_cases hdel : l.deleted
    · simp only [adjust_listing_quantity_if_needed, if_pos hdel] at heq
      injection heq with h2
      subst h2
      exact ⟨fun r hr => (hinv r hr).1, fun _ => hinv⟩
    · simp only [adjust_listing_quantity_if_needed, if_neg hdel] at heq
      injection heq with h2
      subst h2
      constructor
      · intro r hr
        have hr2 : l.quantity_remaining.map (· + d) = some r := hr
        cases hqr : l.quantity_remaining with
        | none => rw [hqr] at hr2; cases hr2
        | some r0 =>
          rw [hqr] at hr2
          have hr3 : some (r0 + d) = some r := hr2
          injection hr3 with h3
          subst h3
          exact add_nonneg (hinv r0 hqr).1 hd
      · intro hbound r hr
        have hr2 : l.quantity_remaining.map (· + d) = some r := hr
        cases hqr : l.quantity_remaining with
        | none => rw [hqr] at hr2; cases hr2
        | some r0 =>
          rw [hqr] at hr2
          have hr3 : some (r0 + d) = some r := hr2
          injection hr3 with h3
          subst h3
          exact ⟨add_nonneg (hinv r0 hqr).1 hd, hbound r0 hqr⟩

/-- Witness for the amended C2 theorem at a concrete listing. -/
theorem listing_quantity_invariant_preservation_witness :
    (0 : ℚ) < 5 ∧
    listing_quantity_invariant (create_listing_row 0 5 .active) :=
  ⟨by norm_num,
   listing_quantity_invariant_preservation.1 0 5 .active (by norm_num)⟩

/-- Counterexample to C2 as stated: confirm a 4-unit claim against a
10-unit listing (decrement), shrink `quantity_total` to 6 (clamped
update), then cancel the claim (increment). Every step is one of the
operations the claim lists, the pre-increment state satisfies the
invariant, and the increment leaves `quantity_remaining = 10 > 6 =
quantity_total`. -/
theorem quantity_invariant_broken_by_increment :
    adjust_listing_quantity_if_needed (create_listing_row 1 10 .active) 4
        .decrement =
      .ok { user_id := 1, quantity_total := 10,
            quantity_remaining := some 6, status := .active,
            deleted := false } ∧
    update_listing_quantities
        { user_id := 1, quantity_total := 10,
          quantity_remaining := some 6, status := .active,
          deleted := false } 6 =
      { user_id := 1, quantity_total := 6, quantity_remaining := some 6,
        status := .active, deleted := false } ∧
    listing_quantity_invariant
      { user_id := 1, quantity_total := 6, quantity_remaining := some 6,
        status := .active, deleted := false } ∧
    adjust_listing_quantity_if_needed
        { user_id := 1, quantity_total := 6,
          quantity_remaining := some 6, status := .active,
          deleted := false } 4 .increment =
      .ok { user_id := 1, quantity_total := 6,
            quantity_remaining := some 10, status := .active,
            deleted := false } ∧
    ¬ listing_quantity_invariant
        { user_id := 1, quantity_total := 6,
          quantity_remaining := some 10, status := .active,
          deleted := false } := by
  refine ⟨?_, ?_, ?_, ?_, ?_⟩
  · simp only [adjust_listing_quantity_if_needed, create_listing_row]
    norm_num
  · simp only [update_listing_quantities]
    norm_num
  · intro r hr
    simp only [Option.some.injEq] at hr
    subst hr
    norm_num
  · simp only [adjust_listing_quantity_if_needed]
    norm_num
  · intro h
    have := h 10 rfl
    norm_num at this

/-- C3: confirming a 4-unit claim against a listing with only 3 units
remaining makes the guarded decrement UPDATE match zero rows, aborts
the transaction with the insufficient-quantity error and leaves both
rows unchanged; the router however maps that transition error to HTTP
500, not the 409 the spec states (`map_api_error_to_response` has no
Conflict branch; the create-claim path returns 409 directly for this
same condition). -/
theorem insufficient_quantity_confirm_maps_to_500 :
    transition_claim_tx
        { claimer_id := 2, quantity_claimed := 4, status := .pending,
          notes := none, claimed_at := 0, confirmed_at := none,
          completed_at := none, cancelled_at := none }
        { user_id := 1, quantity_total := 3, quantity_remaining := some 3,
          status := .active, deleted := false } 1 .confirmed none 9 =
      .failure "Insufficient quantity remaining" ∧
    persisted_rows
        (transition_claim_tx
          { claimer_id := 2, quantity_claimed := 4, status := .pending,
            notes := none, claimed_at := 0, confirmed_at := none,
            completed_at := none, cancelled_at := none }
          { user_id := 1, quantity_total := 3, quantity_remaining := some 3,
            status := .active, deleted := false } 1 .confirmed none 9)
        ({ claimer_id := 2, quantity_claimed := 4, status := .pending,
           notes := none, claimed_at := 0, confirmed_at := none,
           completed_at := none, cancelled_at := none },
         { user_id := 1, quantity_total := 3, quantity_remaining := some 3,
           status := .active, deleted := false }) =
      ({ claimer_id := 2, quantity_claimed := 4, status := .pending,
         notes := none, claimed_at := 0, confirmed_at := none,
         completed_at := none, cancelled_at := none },
       { user_id := 1, quantity_total := 3, quantity_remaining := some 3,
         status := .active, deleted := false }) ∧
    transition_http_status
        (transition_claim_tx
          { claimer_id := 2, quantity_claimed := 4, status := .pending,
            notes := none, claimed_at := 0, confirmed_at := none,
            completed_at := none, cancelled_at := none }
          { user_id := 1, quantity_total := 3, quantity_remaining := some 3,
            status := .active, deleted := false } 1 .confirmed none 9) =
      500 := by
  refine ⟨by decide, by decide, by decide⟩

/-- Example claim row used for the idempotent-reissue results: a claim
already cancelled, with no stored notes. -/
def reissue_claim_example : ClaimRow :=
  { claimer_id := 2, quantity_claimed := 4, status := .cancelled,
    notes := none, claimed_at := 0, confirmed_at := none,
    completed_at := none, cancelled_at := some 3 }

/-- Example listing row used for the idempotent-reissue results. -/
def reissue_listing_example : SurplusListing :=
  { user_id := 1, quantity_total := 10, quantity_remaining := some 10,
    status := .active, deleted := false }

/-- Counterexample to C4 as stated: re-issuing `cancelled` on an
already-cancelled claim with a non-empty payload `notes` returns 200
but overwrites the notes field, so the entity is mutated. The claim
asserts no field changes for any payload notes. -/
theorem idempotent_reissue_overwrites_notes :
    transition_claim_tx reissue_claim_example reissue_listing_example 2
        .cancelled (some "updated pickup note") 7 =
      .success { reissue_claim_example with
                 notes := some "updated pickup note" }
        reissue_listing_example ∧
    { reissue_claim_example with notes := some "updated pickup note" } ≠
      reissue_claim_example ∧
    transition_http_status
        (transition_claim_tx reissue_claim_example reissue_listing_example
          2 .cancelled (some "updated pickup note") 7) = 200 := by
  refine ⟨by decide, by decide, by decide⟩

/-- C4 (amended): re-issuing a transition whose target equals the
current status succeeds with HTTP 200 and the same listing; no
timestamp is re-stamped and status, quantity and participant fields
are unchanged. The only field that may change is `notes`, which the
UPDATE coalesces: a payload whose notes normalize to `none` leaves the
entity entirely unchanged. -/
theorem idempotent_reissue_no_restamp
    (claim : ClaimRow) (listing : SurplusListing) (actor : Nat)
    (notes : Option String) (now : Nat)
    (hdel : listing.deleted = false)
    (hpart : actor = claim.claimer_id ∨ actor = listing.user_id) :
    ∃ c2,
      transition_claim_tx claim listing actor claim.status notes now =
        .success c2 listing ∧
      c2.status = claim.status ∧
      c2.confirmed_at = claim.confirmed_at ∧
      c2.completed_at = claim.completed_at ∧
      c2.cancelled_at = claim.cancelled_at ∧
      c2.claimed_at = claim.claimed_at ∧
      c2.quantity_claimed = claim.quantity_claimed ∧
      c2.claimer_id = claim.claimer_id ∧
      (normalize_optional_text notes = none → c2 = claim) ∧
      transition_http_status (.success c2 listing) = 200 := by
  have hdel' : ¬ (listing.deleted = true) := by
    rw [hdel]; exact Bool.false_ne_true
  have hrole : ∃ role,
      determine_actor_role actor claim.claimer_id listing.user_id =
        .ok role := by
    unfold determine_actor_role
    by_cases hc : actor = claim.claimer_id
    · exact ⟨.claimer, by rw [if_pos hc]⟩
    · rcases hpart with h | h
      · exact absurd h hc
      · exact ⟨.listingOwner, by rw [if_neg hc, if_pos h]⟩
  obtain ⟨role, hrole⟩ := hrole
  have heval : evaluate_transition claim.status claim.status role =
      .ok noop_decision := by
    unfold evaluate_transition
    rw [if_pos rfl]
    rfl
  refine ⟨apply_claim_update claim claim.status
      (normalize_optional_text notes) noop_decision now, ?_, rfl, rfl,
      rfl, rfl, rfl, rfl, rfl, ?_, rfl⟩
  · simp only [transition_claim_tx, if_neg hdel', hrole, heval,
      adjust_listing_quantity_if_needed, noop_decision]
  · intro hnone
    simp only [apply_claim_update, hnone, noop_decision,
      Bool.false_eq_true, if_false]

/-- Witness for the amended C4 theorem at a concrete claim: a re-issued
cancel with all-whitespace payload notes. -/
theorem idempotent_reissue_no_restamp_witness :
    ∃ c2,
      transition_claim_tx reissue_claim_example reissue_listing_example 2
          reissue_claim_example.status (some "   ") 5 =
        .success c2 reissue_listing_example ∧
      c2.status = reissue_claim_example.status ∧
      c2.confirmed_at = reissue_claim_example.confirmed_at ∧
      c2.completed_at = reissue_claim_example.completed_at ∧
      c2.cancelled_at = reissue_claim_example.cancelled_at ∧
      c2.claimed_at = reissue_claim_example.claimed_at ∧
      c2.quantity_claimed = reissue_claim_example.quantity_claimed ∧
      c2.claimer_id = reissue_claim_example.claimer_id ∧
      (normalize_optional_text (some "   ") = none →
        c2 = reissue_claim_example) ∧
      transition_http_status (.success c2 reissue_listing_example) =
        200 :=
  idempotent_reissue_no_restamp reissue_claim_example
    reissue_listing_example 2 (some "   ") 5 (by decide)
    (Or.inl (by decide))

/-- C5: confirming a pending claim (owner decrement) and then
cancelling it — or marking it no-show as the owner — restores the
listing's `quantity_remaining` to its pre-confirm value, when no
interleaved listing update runs between the two transitions. -/
theorem inventory_reversibility
    (claim : ClaimRow) (listing : SurplusListing) (actor2 : Nat)
    (n1 n2 : Option String) (now1 now2 : Nat) (target2 : ClaimStatus)
    (r : ℚ)
    (hst : claim.status = .pending)
    (hdel : listing.deleted = false)
    (hdistinct : claim.claimer_id ≠ listing.user_id)
    (hqr : listing.quantity_remaining = some r)
    (hle : claim.quantity_claimed ≤ r)
    (hpart : actor2 = claim.claimer_id ∨ actor2 = listing.user_id)
    (htgt : target2 = .cancelled ∨
      (target2 = .noShow ∧ actor2 = listing.user_id)) :
    ∃ c1 l1 c2 l2,
      transition_claim_tx claim listing listing.user_id .confirmed n1
          now1 = .success c1 l1 ∧
      transition_claim_tx c1 l1 actor2 target2 n2 now2 =
        .success c2 l2 ∧
      l2.quantity_remaining = some r := by
  have hdel' : ¬ (listing.deleted = true) := by
    rw [hdel]; exact Bool.false_ne_true
  have hrole1 : determine_actor_role listing.user_id claim.claimer_id
      listing.user_id = .ok .listingOwner := by
    unfold determine_actor_role
    rw [if_neg (Ne.symm hdistinct), if_pos rfl]
  have heval1 : evaluate_transition claim.status .confirmed
      .listingOwner =
      .ok { quantity_adjustment := .decrement, stamp_confirmed_at := true,
            stamp_completed_at := false, stamp_cancelled_at := false } := by
    rw [hst]; decide
  have hguard : ¬ (listing.deleted = true ∨ r < claim.quantity_claimed) := by
    push_neg
    exact ⟨by rw [hdel]; exact Bool.false_ne_true, hle⟩
  have hadj1 : adjust_listing_quantity_if_needed listing
      claim.quantity_claimed .decrement =
      .ok { listing with
            quantity_remaining := some (r - claim.quantity_claimed),
            status := if r - claim.quantity_claimed ≤ 0 then .claimed
                      else listing.status } := by
    simp only [adjust_listing_quantity_if_needed, hqr, if_neg hguard]
  have hrole2 : ∃ role2,
      determine_actor_role actor2 claim.claimer_id listing.user_id =
        .ok role2 ∧
      evaluate_transition .confirmed target2 role2 =
        .ok { quantity_adjustment := .increment,
              stamp_confirmed_at := false, stamp_completed_at := false,
              stamp_cancelled_at := true } := by
    rcases hpart with h | h
    · refine ⟨.claimer, by unfold determine_actor_role; rw [if_pos h], ?_⟩
      rcases htgt with ht | ⟨ht, ho⟩
      · rw [ht]; decide
      · exact absurd (h ▸ ho) hdistinct
    · by_cases hc : actor2 = claim.claimer_id
      · exact absurd (hc ▸ h) hdistinct
      · refine ⟨.listingOwner,
          by unfold determine_actor_role; rw [if_neg hc, if_pos h], ?_⟩
        rcases htgt with ht | ⟨ht, _⟩
        · rw [ht]; decide
        · rw [ht]; decide
  obtain ⟨role2, hrole2, heval2⟩ := hrole2
  refine ⟨apply_claim_update claim .confirmed (normalize_optional_text n1)
      { quantity_adjustment := .decrement, stamp_confirmed_at := true,
        stamp_completed_at := false, stamp_cancelled_at := false } now1,
    { listing with
      quantity_remaining := some (r - claim.quantity_claimed),
      status := if r - claim.quantity_claimed ≤ 0 then ListingStatus.claimed
                else listing.status },
    apply_claim_update
      (apply_claim_update claim .confirmed (normalize_optional_text n1)
        { quantity_adjustment := .decrement, stamp_confirmed_at := true,
          stamp_completed_at := false, stamp_cancelled_at := false } now1)
      target2 (normalize_optional_text n2)
      { quantity_adjustment := .increment, stamp_confirmed_at := false,
        stamp_completed_at := false, stamp_cancelled_at := true } now2,
    { listing with
      quantity_remaining := some (r - claim.quantity_claimed +
        claim.quantity_claimed),
      status := if (if r - claim.quantity_claimed ≤ 0 then
          ListingStatus.claimed else listing.status) = ListingStatus.claimed
        then ListingStatus.active
        else if r - claim.quantity_claimed ≤ 0 then ListingStatus.claimed
        else listing.status },
    ?_, ?_, ?_⟩
  · simp only [transition_claim_tx, if_neg hdel', hrole1, heval1, hadj1]
  · simp only [transition_claim_tx, apply_claim_update, hrole2, heval2,
      adjust_listing_quantity_if_needed, if_neg hdel']
    rfl
  · show some (r - claim.quantity_claimed + claim.quantity_claimed) =
      some r
    congr 1
    ring

/-- Witness for C5: a 4-unit claim against a 10-unit listing, confirmed
by the owner and then cancelled by the claimer, ends with
`quantity_remaining = 10` again. -/
theorem inventory_reversibility_witness :
    ∃ c1 l1 c2 l2,
      transition_claim_tx
          { claimer_id := 2, quantity_claimed := 4, status := .pending,
            notes := none, claimed_at := 0, confirmed_at := none,
            completed_at := none, cancelled_at := none }
          { user_id := 1, quantity_total := 10,
            quantity_remaining := some 10, status := .active,
            deleted := false }
          ({ user_id := 1, quantity_total := 10,
             quantity_remaining := some 10, status := .active,
             deleted := false } : SurplusListing).user_id .confirmed none
          5 = .success c1 l1 ∧
      transition_claim_tx c1 l1 2 .cancelled none 6 = .success c2 l2 ∧
      l2.quantity_remaining = some 10 :=
  inventory_reversibility
    { claimer_id := 2, quantity_claimed := 4, status := .pending,
      notes := none, claimed_at := 0, confirmed_at := none,
      completed_at := none, cancelled_at := none }
    { user_id := 1, quantity_total := 10, quantity_remaining := some 10,
      status := .active, deleted := false }
    2 none none 5 6 .cancelled 10 (by decide) (by decide) (by decide)
    (by decide) (by norm_num) (Or.inl (by decide)) (Or.inl (by decide))

/-- The columns of a `surplus_listings` row that decide the
create-listing idempotency outcome in `listing.rs`. -/
structure ListingRowKey where
  user_id : Nat
  deleted : Bool
deriving DecidableEq, Repr

/-- Classification of a `create_listing` call in `listing.rs`:
a fresh insert (201, `listing.created` emitted), an idempotency replay
of an existing row (201, no event), or the 409 conflict response. -/
inductive CreateListingOutcome
  | created
  | replay
  | conflict
deriving DecidableEq, Repr

/-- The persistence decision of `create_listing` in `listing.rs`: the
insert is `on conflict (id) do nothing`; when it returns no row, the
fallback select loads the row by id filtered by `user_id = owner` and
`deleted_at is null` — found means idempotency replay, otherwise the
call answers 409. -/
def create_listing_outcome (store : Nat → Option ListingRowKey)
    (owner id : Nat) :
    CreateListingOutcome × (Nat → Option ListingRowKey) :=
  match store id with
  | none =>
    (.created, fun i => if i = id then some ⟨owner, false⟩ else store i)
  | some row =>
    if row.user_id = owner ∧ row.deleted = false then (.replay, store)
    else (.conflict, store)

/-- C6 (amended): with a derived id, a fresh id inserts; a conflicting
id is classified as idempotency replay exactly when the existing row is
a live (non-soft-deleted) row of the calling owner, and the call fails
with CONFLICT (409) exactly when a row with the derived id exists but
is not a live row of the calling owner. -/
theorem create_listing_conflict_classification
    (store : Nat → Option ListingRowKey) (owner id : Nat) :
    ((create_listing_outcome store owner id).1 = .created ↔
      store id = none) ∧
    ((create_listing_outcome store owner id).1 = .replay ↔
      ∃ row, store id = some row ∧ row.user_id = owner ∧
        row.deleted = false) ∧
    ((create_listing_outcome store owner id).1 = .conflict ↔
      ∃ row, store id = some row ∧
        ¬ (row.user_id = owner ∧ row.deleted = false)) := by
  cases h : store id with
  | none =>
    refine ⟨by simp [create_listing_outcome, h], ?_, ?_⟩
    · simp [create_listing_outcome, h]
    · simp [create_listing_outcome, h]
  | some row =>
    by_cases hc : row.user_id = owner ∧ row.deleted = false
    · refine ⟨?_, ?_, ?_⟩ <;>
        simp [create_listing_outcome, h, if_pos hc, hc]
    · refine ⟨?_, ?_, ?_⟩
      · simp [create_listing_outcome, h, if_neg hc]
      · simp [create_listing_outcome, h, if_neg hc, hc]
      · simp only [create_listing_outcome, h, if_neg hc, true_and,
          Option.some.injEq]
        constructor
        · intro _
          exact ⟨row, rfl, hc⟩
        · intro _
          trivial

/-- Counterexample to C6 as stated: a soft-deleted row with the derived
id that does belong to the calling owner still produces the 409
conflict, so "fails with CONFLICT iff the row does not belong to the
owner" is false in the only-if direction. -/
theorem create_listing_conflict_despite_owner_match :
    (create_listing_outcome
        (fun i => if i = 7 then some ⟨3, true⟩ else none) 3 7).1 =
      .conflict ∧
    ¬ (∃ row : ListingRowKey,
        (fun i => if i = 7 then some (⟨3, true⟩ : ListingRowKey)
          else none) 7 = some row ∧ row.user_id ≠ 3) := by
  constructor
  · rfl
  · rintro ⟨row, hrow, hne⟩
    have h2 : some (⟨3, true⟩ : ListingRowKey) = some row := hrow
    injection h2 with h3
    exact hne (h3 ▸ rfl)

/-- Replay driver mode, from `derived_pipeline_replay.rs`. -/
inductive ReplayMode
  | replay
  | backfill
deriving DecidableEq, Repr

/-- `mode_name` from `derived_pipeline_replay.rs`. -/
def mode_name : ReplayMode → String
  | .replay => "replay"
  | .backfill => "backfill"

/-- `CliConfig` from `derived_pipeline_replay.rs`. -/
structure CliConfig where
  mode : ReplayMode
  fromTs : Option Int
  toTs : Int
  checkpoint_file : Option String
  dry_run : Bool
deriving DecidableEq, Repr

/-- `ReplayCheckpoint` from `derived_pipeline_replay.rs`. -/
structure ReplayCheckpoint where
  last_processed_to : Int
  updated_at : Int
  mode : String
deriving DecidableEq, Repr

/-- `write_checkpoint` from `derived_pipeline_replay.rs`: the payload
is `{last_processed_to = config.toTs, updated_at = now, mode}`. -/
def write_checkpoint (config : CliConfig) (now : Int) : ReplayCheckpoint :=
  { last_processed_to := config.toTs, updated_at := now,
    mode := mode_name config.mode }

/-- Observable effects of one driver run. -/
structure ReplayRunResult where
  upserts_performed : Nat
  checkpoint_written : Option ReplayCheckpoint
deriving DecidableEq, Repr

/-- The `main` control flow of `derived_pipeline_replay.rs` after scope
resolution: zero scopes exit successfully before any write or
checkpoint; a dry run logs instead of upserting; the checkpoint is
written only under `!config.dry_run`, and only when a path is
configured. Each scope drives one recompute per window (3 windows). -/
def replay_run (config : CliConfig) (scope_count : Nat) (now : Int) :
    ReplayRunResult :=
  if scope_count = 0 then
    { upserts_performed := 0, checkpoint_written := none }
  else
    { upserts_performed := if config.dry_run then 0 else scope_count * 3,
      checkpoint_written :=
        if config.dry_run then none
        else config.checkpoint_file.map fun _ => write_checkpoint config now }

/-- C9 (amended): a successful non-dry run with at least one resolved
scope and a configured checkpoint path writes the checkpoint
`{last_processed_to = to, updated_at, mode}`; it performs three upserts
per scope. (Dry runs and zero-scope runs succeed without writing a
checkpoint.) -/
theorem replay_checkpoint_written_on_success
    (config : CliConfig) (scope_count : Nat) (now : Int) (path : String)
    (hdry : config.dry_run = false)
    (hpath : config.checkpoint_file = some path)
    (hscopes : scope_count ≠ 0) :
    (replay_run config scope_count now).checkpoint_written =
      some { last_processed_to := config.toTs, updated_at := now,
             mode := mode_name config.mode } ∧
    (replay_run config scope_count now).upserts_performed =
      scope_count * 3 := by
  simp [replay_run, hscopes, hdry, hpath, write_checkpoint]

/-- Witness for the amended C9 theorem at a concrete configuration. -/
theorem replay_checkpoint_written_on_success_witness :
    (replay_run
        { mode := .replay, fromTs := none, toTs := 1000,
          checkpoint_file := some "checkpoint.json", dry_run := false }
        2 2000).checkpoint_written =
      some { last_processed_to := 1000, updated_at := 2000,
             mode := mode_name .replay } ∧
    (replay_run
        { mode := .replay, fromTs := none, toTs := 1000,
          checkpoint_file := some "checkpoint.json", dry_run := false }
        2 2000).upserts_performed = 2 * 3 :=
  replay_checkpoint_written_on_success
    { mode := .replay, fromTs := none, toTs := 1000,
      checkpoint_file := some "checkpoint.json", dry_run := false }
    2 2000 "checkpoint.json" (by decide) (by decide) (by decide)

/-- Counterexample to C9 as stated: a successful dry run with a
configured checkpoint path writes no checkpoint — `main` only calls
`write_checkpoint` under `!config.dry_run`. -/
theorem dry_run_writes_no_checkpoint :
    ({ mode := .replay, fromTs := none, toTs := 1000,
       checkpoint_file := some "checkpoint.json",
       dry_run := true } : CliConfig).dry_run = true ∧
    ({ mode := .replay, fromTs := none, toTs := 1000,
       checkpoint_file := some "checkpoint.json",
       dry_run := true } : CliConfig).checkpoint_file =
      some "checkpoint.json" ∧
    (replay_run
        { mode := .replay, fromTs := none, toTs := 1000,
          checkpoint_file := some "checkpoint.json", dry_run := true }
        2 2000).checkpoint_written = none := by
  refine ⟨rfl, rfl, by decide⟩

/-- `compute_bucket_start` from `derived_pipeline_replay.rs`: epoch
seconds floored to the 5-minute bucket via `rem_euclid` (`Int.emod` is
the same Euclidean remainder for the positive modulus 300). -/
def compute_bucket_start (occurred_at : Int) : Int :=
  occurred_at - occurred_at.emod (5 * 60)

/-- The `bucket_start` the live aggregator passes to the upsert helper:
`recompute_and_upsert` in `rolling_geo_aggregation.rs` sets
`let bucket_start = Utc::now();` — the raw current time, with no
flooring. -/
def rolling_bucket_start (now : Int) : Int := now

/-- Modelled from the spec: `upsert_derived_supply_signal` is a SQL
helper that is not under `src/`; §6 describes it as performing the
key-based upsert for the derived-signal table, so it stores the row
under the key arguments it is handed — schema version 1, geo boundary
key, crop scope, window and the `bucket_start` value, verbatim. -/
def upsert_derived_supply_signal_key (geo_boundary_key : List Char)
    (crop_id : Option Nat) (window_days : Nat) (bucket_start : Int) :
    Nat × List Char × Option Nat × Nat × Int :=
  (1, geo_boundary_key, crop_id, window_days, bucket_start)

/-- C8 evaluation at the failing input: the replay driver floors epoch
second 630 to 600, but the live aggregator keys its upsert with the
raw producing time 630, so the two paths key different rows for the
same 5-minute bucket. The replay-side floor does land on a 5-minute
boundary for every input. -/
theorem live_bucket_start_not_floored :
    compute_bucket_start 630 = 600 ∧
    rolling_bucket_start 630 = 630 ∧
    rolling_bucket_start 630 ≠ compute_bucket_start 630 ∧
    upsert_derived_supply_signal_key "9q8y".data none 7
        (rolling_bucket_start 630) ≠
      upsert_derived_supply_signal_key "9q8y".data none 7
        (compute_bucket_start 630) ∧
    (∀ t : Int, (compute_bucket_start t).emod 300 = 0) := by
  refine ⟨by decide, rfl, by decide, by decide, ?_⟩
  intro t
  show (t - t % 300) % 300 = 0
  rw [Int.sub_emod, Int.emod_emod_of_dvd _ (dvd_refl 300), sub_self,
    Int.zero_emod]

/-- Rust `geo_key.trim().to_ascii_lowercase()` from the two workers
(geohash keys are ASCII, where `Char.toLower` agrees with
`to_ascii_lowercase` and char count agrees with byte length). -/
def geo_key_normalize (geo_key : List Char) : List Char :=
  (trim_chars geo_key).map Char.toLower

/-- `GEO_PRECISIONS` from the two workers. -/
def GEO_PRECISIONS : List Nat := [4, 5, 6]

/-- `geo_prefixes` from `rolling_geo_aggregation.rs` (identical in
`derived_pipeline_replay.rs`): the prefixes of the normalized key at
each supported precision not exceeding its length. -/
def geo_prefixes (geo_key : List Char) : List (List Char) :=
  (GEO_PRECISIONS.filter fun p => p ≤ (geo_key_normalize geo_key).length).map
    fun p => (geo_key_normalize geo_key).take p

/-- `expand_geo_scopes` from the two workers: for every source pair,
insert `(prefix, crop)` and `(prefix, ALL_CROPS = none)` into a
deduplicating set. -/
def expand_geo_scopes (source_pairs : List (List Char × Option Nat)) :
    Finset (List Char × Option Nat) :=
  source_pairs.foldr
    (fun pr acc =>
      (geo_prefixes pr.1).foldr
        (fun pfx acc2 => insert (pfx, pr.2) (insert (pfx, none) acc2))
        acc)
    ∅

/-- The `handler` control flow of `rolling_geo_aggregation.rs` after
scope resolution: no resolved scopes logs a warning and returns `Ok`
with no store write; otherwise one recompute+upsert runs per scope per
window (3 windows). Result: (success, upsert count). -/
def handler_result (scopes : Finset (List Char × Option Nat)) :
    Bool × Nat :=
  if scopes = ∅ then (true, 0) else (true, scopes.card * 3)

/-- The scope set described by the claim, stated from its words (the
spec side of the refinement): prefixes at lengths 4, 5, 6 not exceeding
the normalized key length, each paired with the source crop and with
the all-crops sentinel. -/
def claimed_scope_set (g : List Char) (c : Option Nat) :
    Finset (List Char × Option Nat) :=
  (({4, 5, 6} : Finset Nat).filter
      fun p => p ≤ (geo_key_normalize g).length).biUnion
    fun p => {((geo_key_normalize g).take p, c),
              ((geo_key_normalize g).take p, none)}

/-- Membership in the inner per-pair fold of `expand_geo_scopes`. -/
theorem mem_scope_foldr (c : Option Nat) (pfxs : List (List Char))
    (acc : Finset (List Char × Option Nat))
    (x : List Char × Option Nat) :
    (x ∈ pfxs.foldr
        (fun pfx acc2 => insert (pfx, c) (insert (pfx, none) acc2))
        acc) ↔
      (∃ pfx ∈ pfxs, x = (pfx, c) ∨ x = (pfx, none)) ∨ x ∈ acc := by
  induction pfxs with
  | nil => simp
  | cons hd tl ih =>
    simp only [List.foldr_cons, Finset.mem_insert, ih, List.mem_cons]
    constructor
    · rintro (h | h | h)
      · exact Or.inl ⟨hd, Or.inl rfl, Or.inl h⟩
      · exact Or.inl ⟨hd, Or.inl rfl, Or.inr h⟩
      · rcases h with ⟨pfx, hp, hx⟩ | h
        · exact Or.inl ⟨pfx, Or.inr hp, hx⟩
        · exact Or.inr h
    · rintro (⟨pfx, hp | hp, hx⟩ | h)
      · subst hp
        rcases hx with hx | hx
        · exact Or.inl hx
        · exact Or.inr (Or.inl hx)
      · exact Or.inr (Or.inr (Or.inl ⟨pfx, hp, hx⟩))
      · exact Or.inr (Or.inr (Or.inr h))

/-- Membership in `expand_geo_scopes`. -/
theorem mem_expand_geo_scopes
    (pairs : List (List Char × Option Nat))
    (x : List Char × Option Nat) :
    x ∈ expand_geo_scopes pairs ↔
      ∃ pr ∈ pairs, ∃ pfx ∈ geo_prefixes pr.1,
        x = (pfx, pr.2) ∨ x = (pfx, none) := by
  induction pairs with
  | nil => simp [expand_geo_scopes]
  | cons hd tl ih =>
    rw [show expand_geo_scopes (hd :: tl) =
        (geo_prefixes hd.1).foldr
          (fun pfx acc2 => insert (pfx, hd.2) (insert (pfx, none) acc2))
          (expand_geo_scopes tl) from rfl,
      mem_scope_foldr, ih]
    simp only [List.mem_cons]
    constructor
    · rintro (⟨pfx, hp, hx⟩ | ⟨pr, hpr, pfx, hp, hx⟩)
      · exact ⟨hd, Or.inl rfl, pfx, hp, hx⟩
      · exact ⟨pr, Or.inr hpr, pfx, hp, hx⟩
    · rintro ⟨pr, hpr | hpr, pfx, hp, hx⟩
      · subst hpr
        exact Or.inl ⟨pfx, hp, hx⟩
      · exact Or.inr ⟨pr, hpr, pfx, hp, hx⟩

/-- C10: for a single source pair the expansion is exactly the scope
set the claim describes; with a null crop the handler performs at most
9 scope-window upserts; a normalized key shorter than 4 characters
expands to no scope and the handler succeeds with zero upserts. -/
theorem geo_scope_expansion (g : List Char) (c : Option Nat) :
    expand_geo_scopes [(g, c)] = claimed_scope_set g c ∧
    (handler_result (expand_geo_scopes [(g, none)])).2 ≤ 9 ∧
    ((geo_key_normalize g).length < 4 →
      expand_geo_scopes [(g, c)] = ∅ ∧
      handler_result (expand_geo_scopes [(g, c)]) = (true, 0)) := by
  refine ⟨?_, ?_, ?_⟩
  · ext x
    rw [mem_expand_geo_scopes]
    simp only [claimed_scope_set, Finset.mem_biUnion, Finset.mem_filter,
      Finset.mem_insert, Finset.mem_singleton, List.mem_singleton,
      geo_prefixes, List.mem_map, List.mem_filter, GEO_PRECISIONS]
    constructor
    · rintro ⟨pr, hpr, pfx, hp, hx⟩
      subst hpr
      obtain ⟨p, hp2, hpfx⟩ := hp
      subst hpfx
      refine ⟨p, ⟨by simpa using hp2.1, by simpa using hp2.2⟩, ?_⟩
      simpa using hx
    · rintro ⟨p, ⟨hp1, hp2⟩, hx⟩
      refine ⟨(g, c), rfl, (geo_key_normalize g).take p,
        ⟨p, ⟨by simpa using hp1, by simpa using hp2⟩, rfl⟩, ?_⟩
      simpa using hx
  · have hsub : expand_geo_scopes [(g, none)] ⊆
        Finset.image
          (fun p => ((geo_key_normalize g).take p, (none : Option Nat)))
          ({4, 5, 6} : Finset Nat) := by
      intro x hx
      rw [mem_expand_geo_scopes] at hx
      obtain ⟨pr, hpr, pfx, hp, hx⟩ := hx
      simp only [List.mem_singleton] at hpr
      subst hpr
      simp only [geo_prefixes, List.mem_map, List.mem_filter,
        GEO_PRECISIONS] at hp
      obtain ⟨p, hp2, hpfx⟩ := hp
      subst hpfx
      have hx2 : x = ((geo_key_normalize g).take p, (none : Option Nat)) := by
        rcases hx with hx | hx <;> exact hx
      subst hx2
      exact Finset.mem_image.mpr ⟨p, by simpa using hp2.1, rfl⟩
    have hcard : (expand_geo_scopes [(g, none)]).card ≤ 3 := by
      calc (expand_geo_scopes [(g, none)]).card
          ≤ (Finset.image
              (fun p => ((geo_key_normalize g).take p, (none : Option Nat)))
              ({4, 5, 6} : Finset Nat)).card := Finset.card_le_card hsub
        _ ≤ ({4, 5, 6} : Finset Nat).card := Finset.card_image_le
        _ = 3 := rfl
    unfold handler_result
    split_ifs
    · norm_num
    · omega
  · intro hlen
    have hempty : expand_geo_scopes [(g, c)] = ∅ := by
      ext x
      rw [mem_expand_geo_scopes]
      simp only [Finset.not_mem_empty, iff_false, List.mem_singleton]
      rintro ⟨pr, hpr, pfx, hp, _⟩
      subst hpr
      simp only [geo_prefixes, List.mem_map, List.mem_filter,
        GEO_PRECISIONS] at hp
      obtain ⟨p, hp2, _⟩ := hp
      have h4 : p = 4 ∨ p = 5 ∨ p = 6 := by simpa using hp2.1
      have h5 : p ≤ (geo_key_normalize g).length := by simpa using hp2.2
      rcases h4 with rfl | rfl | rfl <;> omega
    refine ⟨hempty, ?_⟩
    rw [hempty]
    simp [handler_result]

/-- Witness for C10 at a 2-character geo key: no scope, handler returns
success with zero upserts. -/
theorem geo_scope_expansion_witness :
    expand_geo_scopes [("9q".data, some 5)] = ∅ ∧
    handler_result (expand_geo_scopes [("9q".data, some 5)]) =
      (true, 0) :=
  (geo_scope_expansion "9q".data (some 5)).2.2 (by decide)

/-- `2 ^ 32`, the word modulus of SHA-256 arithmetic. -/
def w32 : Nat := 4294967296

/-- 32-bit right rotation. -/
def rotr32 (n x : Nat) : Nat := ((x >>> n) ||| (x <<< (32 - n))) % w32

/-- The 64 SHA-256 round constants (FIPS 180-4, here in decimal), as
used by the `sha2` crate that `listing.rs` calls. -/
def sha256_K : List Nat :=
  [1116352408, 1899447441, 3049323471, 3921009573,
   961987163, 1508970993, 2453635748, 2870763221,
   3624381080, 310598401, 607225278, 1426881987,
   1925078388, 2162078206, 2614888103, 3248222580,
   3835390401, 4022224774, 264347078, 604807628,
   770255983, 1249150122, 1555081692, 1996064986,
   2554220882, 2821834349, 2952996808, 3210313671,
   3336571891, 3584528711, 113926993, 338241895,
   666307205, 773529912, 1294757372, 1396182291,
   1695183700, 1986661051, 2177026350, 2456956037,
   2730485921, 2820302411, 3259730800, 3345764771,
   3516065817, 3600352804, 4094571909, 275423344,
   430227734, 506948616, 659060556, 883997877,
   958139571, 1322822218, 1537002063, 1747873779,
   1955562222, 2024104815, 2227730452, 2361852424,
   2428436474, 2756734187, 3204031479, 3329325298]

/-- The eight SHA-256 working words. -/
structure Sha256State where
  a : Nat
  b : Nat
  c : Nat
  d : Nat
  e : Nat
  f : Nat
  g : Nat
  h : Nat

/-- The SHA-256 initial hash value (FIPS 180-4, in decimal). -/
def sha256_init : Sha256State :=
  ⟨1779033703, 3144134277, 1013904242, 2773480762, 1359893119,
   2600822924, 528734635, 1541459225⟩

/-- Big sigma 0. -/
def bsig0 (x : Nat) : Nat := rotr32 2 x ^^^ rotr32 13 x ^^^ rotr32 22 x

/-- Big sigma 1. -/
def bsig1 (x : Nat) : Nat := rotr32 6 x ^^^ rotr32 11 x ^^^ rotr32 25 x

/-- Small sigma 0. -/
def ssig0 (x : Nat) : Nat := rotr32 7 x ^^^ rotr32 18 x ^^^ (x >>> 3)

/-- Small sigma 1. -/
def ssig1 (x : Nat) : Nat := rotr32 17 x ^^^ rotr32 19 x ^^^ (x >>> 10)

/-- SHA-256 choice function. -/
def ch32 (x y z : Nat) : Nat := (x &&& y) ^^^ ((x ^^^ 4294967295) &&& z)

/-- SHA-256 majority function. -/
def maj32 (x y z : Nat) : Nat := (x &&& y) ^^^ (x &&& z) ^^^ (y &&& z)

/-- The next word of the SHA-256 message schedule. -/
def sha256_next_word (acc : List Nat) : Nat :=
  let t := acc.length
  (ssig1 (acc.getD (t - 2) 0) + acc.getD (t - 7) 0 +
    ssig0 (acc.getD (t - 15) 0) + acc.getD (t - 16) 0) % w32

/-- Extend 16 schedule words to 64. -/
def sha256_extend (ws : List Nat) : List Nat :=
  (List.range 48).foldl (fun acc _ => acc ++ [sha256_next_word acc]) ws

/-- A 64-byte block as 16 big-endian 32-bit words. -/
def sha256_block_words (block : List Nat) : List Nat :=
  (List.range 16).map fun i =>
    block.getD (4 * i) 0 * 16777216 + block.getD (4 * i + 1) 0 * 65536 +
      block.getD (4 * i + 2) 0 * 256 + block.getD (4 * i + 3) 0

/-- One SHA-256 round on the working state. -/
def sha256_round (s : Sha256State) (wk : Nat × Nat) : Sha256State :=
  let t1 := (s.h + bsig1 s.e + ch32 s.e s.f s.g + wk.2 + wk.1) % w32
  let t2 := (bsig0 s.a + maj32 s.a s.b s.c) % w32
  { a := (t1 + t2) % w32, b := s.a, c := s.b, d := s.c,
    e := (s.d + t1) % w32, f := s.e, g := s.f, h := s.g }

/-- Compress one 64-byte block into the state. -/
def sha256_compress (s : Sha256State) (block : List Nat) : Sha256State :=
  let ws := sha256_extend (sha256_block_words block)
  let t := (ws.zip sha256_K).foldl sha256_round s
  { a := (s.a + t.a) % w32, b := (s.b + t.b) % w32,
    c := (s.c + t.c) % w32, d := (s.d + t.d) % w32,
    e := (s.e + t.e) % w32, f := (s.f + t.f) % w32,
    g := (s.g + t.g) % w32, h := (s.h + t.h) % w32 }

/-- A value as `n` big-endian bytes. -/
def toBytesBE : Nat → Nat → List Nat
  | 0, _ => []
  | n + 1, v => toBytesBE n (v >>> 8) ++ [v % 256]

/-- SHA-256 padding: `0x80`, zeros to 56 mod 64, 8-byte big-endian bit
length. -/
def sha256_pad (msg : List Nat) : List Nat :=
  let len := msg.length
  let zeros := (64 - (len + 9) % 64) % 64
  msg ++ [128] ++ List.replicate zeros 0 ++ toBytesBE 8 (len * 8)

/-- Split the padded message into 64-byte blocks. -/
def sha256_blocks (padded : List Nat) : List (List Nat) :=
  (List.range (padded.length / 64)).map fun i =>
    (padded.drop (64 * i)).take 64

/-- SHA-256 of a byte list, as its 32 digest bytes. -/
def sha256 (msg : List Nat) : List Nat :=
  let fin := (sha256_blocks (sha256_pad msg)).foldl sha256_compress
    sha256_init
  toBytesBE 4 fin.a ++ toBytesBE 4 fin.b ++ toBytesBE 4 fin.c ++
    toBytesBE 4 fin.d ++ toBytesBE 4 fin.e ++ toBytesBE 4 fin.f ++
    toBytesBE 4 fin.g ++ toBytesBE 4 fin.h

/-- FIPS 180-4 test vector: the definition of `sha256` above hashes
"abc" to the published digest. -/
theorem sha256_test_vector_abc :
    sha256 [0x61, 0x62, 0x63] =
      [0xba, 0x78, 0x16, 0xbf, 0x8f, 0x01, 0xcf, 0xea, 0x41, 0x41,
       0x40, 0xde, 0x5d, 0xae, 0x22, 0x23, 0xb0, 0x03, 0x61, 0xa3,
       0x96, 0x17, 0x7a, 0x9c, 0xb4, 0x10, 0xff, 0x61, 0xf2, 0x00,
       0x15, 0xad] := by decide

/-- `toBytesBE` yields exactly `n` bytes. -/
theorem toBytesBE_length (n v : Nat) : (toBytesBE n v).length = n := by
  induction n generalizing v with
  | zero => rfl
  | succ n ih => simp [toBytesBE, ih]

/-- A SHA-256 digest is 32 bytes. -/
theorem sha256_length (msg : List Nat) : (sha256 msg).length = 32 := by
  simp [sha256, toBytesBE_length]

/-- With the low nibble kept and `0x40` forced in, the high nibble of
the result is 4. -/
theorem forced_version_nibble (b : Nat) : ((b &&& 15) ||| 64) / 16 = 4 := by
  have h : b &&& 15 < 16 := lt_of_le_of_lt Nat.and_le_right (by norm_num)
  set y := b &&& 15 with hy
  interval_cases y <;> decide

/-- With the low six bits kept and `0x80` forced in, the top two bits
of the result are `10`. -/
theorem forced_variant_bits (b : Nat) : ((b &&& 63) ||| 128) / 64 = 2 := by
  have h : b &&& 63 < 64 := lt_of_le_of_lt Nat.and_le_right (by norm_num)
  set y := b &&& 63 with hy
  interval_cases y <;> decide

/-- `derive_deterministic_listing_id` from `listing.rs`: SHA-256 over
the owner UUID bytes, the ASCII colon `0x3a`, and the key's UTF-8
bytes; the first 16 digest bytes; byte 6 forced to
`(b &&& 0x0f) ||| 0x40` and byte 8 to `(b &&& 0x3f) ||| 0x80`. -/
def derive_deterministic_listing_id
    (owner_id idempotency_key : List Nat) : List Nat :=
  let digest := sha256 (owner_id ++ [0x3a] ++ idempotency_key)
  let bytes := digest.take 16
  (bytes.set 6 ((bytes.getD 6 0 &&& 0x0f) ||| 0x40)).set 8
    ((bytes.getD 8 0 &&& 0x3f) ||| 0x80)

/-- C7: the derived listing id is 16 bytes; its byte 6 has high nibble
4 (version 4) and its byte 8 has top bits `10` (RFC 4122 variant);
every other byte of the id equals the corresponding byte of
`SHA-256(owner_id bytes ∥ ":" ∥ key bytes)`; and the derivation is a
pure function of `(owner, key)`, so equal pairs give equal ids. -/
theorem listing_id_derivation (owner_id idempotency_key : List Nat) :
    (derive_deterministic_listing_id owner_id idempotency_key).length =
      16 ∧
    (derive_deterministic_listing_id owner_id idempotency_key).getD 6 0 /
      16 = 4 ∧
    (derive_deterministic_listing_id owner_id idempotency_key).getD 8 0 /
      64 = 2 ∧
    (∀ i, i < 16 → i ≠ 6 → i ≠ 8 →
      (derive_deterministic_listing_id owner_id idempotency_key).getD
          i 0 =
        (sha256 (owner_id ++ [0x3a] ++ idempotency_key)).getD i 0) ∧
    derive_deterministic_listing_id owner_id idempotency_key =
      derive_deterministic_listing_id owner_id idempotency_key := by
  have hdigest : (sha256 (owner_id ++ [0x3a] ++ idempotency_key)).length =
      32 := sha256_length _
  have hbytes :
      ((sha256 (owner_id ++ [0x3a] ++ idempotency_key)).take 16).length =
        16 := by
    rw [List.length_take, hdigest]
    decide
  refine ⟨?_, ?_, ?_, ?_, rfl⟩
  · simp only [derive_deterministic_listing_id, List.length_set]
    exact hbytes
  · rw [derive_deterministic_listing_id,
      List.getD_eq_getElem?_getD, List.getElem?_set_ne (by decide),
      List.getElem?_set_eq_of_lt _ (by rw [hbytes]; norm_num)]
    exact forced_version_nibble _
  · rw [derive_deterministic_listing_id,
      List.getD_eq_getElem?_getD,
      List.getElem?_set_eq_of_lt _ (by rw [List.length_set, hbytes]; norm_num)]
    exact forced_variant_bits _
  · intro i hi h6 h8
    rw [derive_deterministic_listing_id,
      List.getD_eq_getElem?_getD, List.getElem?_set_ne (Ne.symm h8),
      List.getElem?_set_ne (Ne.symm h6), List.getElem?_take, if_pos hi,
      ← List.getD_eq_getElem?_getD]

/-- Witness for C7 at a concrete owner UUID and the key "same-key"
(the pair the repository's own unit test uses). -/
theorem listing_id_derivation_witness :
    (derive_deterministic_listing_id
        [0x0e, 0x7a, 0xb2, 0xf8, 0x9d, 0x1b, 0x46, 0xb0, 0x9c, 0x53,
         0xb6, 0x05, 0x3b, 0xc9, 0x00, 0x11]
        [0x73, 0x61, 0x6d, 0x65, 0x2d, 0x6b, 0x65, 0x79]).length = 16 ∧
    (derive_deterministic_listing_id
        [0x0e, 0x7a, 0xb2, 0xf8, 0x9d, 0x1b, 0x46, 0xb0, 0x9c, 0x53,
         0xb6, 0x05, 0x3b, 0xc9, 0x00, 0x11]
        [0x73, 0x61, 0x6d, 0x65, 0x2d, 0x6b, 0x65, 0x79]).getD 0 0 =
      (sha256
          ([0x0e, 0x7a, 0xb2, 0xf8, 0x9d, 0x1b, 0x46, 0xb0, 0x9c, 0x53,
            0xb6, 0x05, 0x3b, 0xc9, 0x00, 0x11] ++ [0x3a] ++
            [0x73, 0x61, 0x6d, 0x65, 0x2d, 0x6b, 0x65, 0x79])).getD
        0 0 :=
  ⟨(listing_id_derivation _ _).1,
   (listing_id_derivation _ _).2.2.2.1 0 (by decide) (by decide)
     (by decide)⟩

end CommunityGarden
